import Mathlib

/-!
Shallow embedding of `src/pokepipeline.py` (a single-pass ETL pipeline that
fetches creature documents from a REST API and stores them in a SQLite
database).

Modelling conventions:
* JSON documents are modelled by structures carrying exactly the fields the
  Python code reads.  A key the code reads with `d[k]` is
  `Option (Option β)`: the outer `Option` is key presence (`none` raises
  `KeyError`), the inner one distinguishes a JSON `null` (Python `None`,
  which `d[k]` returns without raising) from a proper value.  A key read
  with `d.get(k)` and no default (`height`, `weight`, `base_experience`, the
  `species` object) makes `null` and an absent key indistinguishable already,
  so it is a single `Option`; a key read with a non-`None` default (`slot`,
  `is_hidden`, `base_stat`, `effort`) is likewise a single `Option` taking the
  default when absent (a present `null` under those keys is not represented).
* Python `KeyError` and `sqlite3.IntegrityError` are modelled with
  `Except PyErr`.
* Network I/O (`requests.get` inside `fetch_json`) is modelled by oracles:
  `fetchP : Int -> Option RawPokemon` for the per-id pokemon fetch and
  `fetchS : String -> Option RawSpecies` for the species fetch, matching the
  `Optional[dict]` result type of `fetch_json`.  The retry loop of
  `fetch_json` itself is modelled separately over a response oracle, with
  sleeping time accounted as a rational number.
* SQLite tables are association lists `(key, value)`, with the schema's
  semantics under `PRAGMA foreign_keys = ON`:
  - `INSERT OR REPLACE` deletes the conflicting row and appends the new one;
    a row whose primary-key tuple contains a NULL component never conflicts
    with anything (SQL NULL comparisons), so such an insert only appends.
  - Replacing a `pokemon` row fires the child tables' `ON DELETE CASCADE`,
    deleting the rows whose `pokemon_id` equals the replaced id (NULL
    `pokemon_id` rows are untouched).
  - Inserting into a child table checks its foreign keys immediately: a
    non-NULL `type_id`/`ability_id` absent from its reference table, or a
    non-NULL `pokemon_id` absent from `pokemon`, raises `IntegrityError`
    (a NULL component satisfies the constraint).
  - Inserting NULL under a `NOT NULL` column (`pokemon.name`, `types.name`,
    `abilities.name`) raises `IntegrityError`; `OR REPLACE` cannot recover
    (no default value) and `OR IGNORE` silently skips the row.
  - Inserting NULL (or nothing) under an `INTEGER PRIMARY KEY` assigns a
    fresh rowid, one more than the largest in use (1 on an empty table);
    the same allocation serves `cursor.lastrowid` after
    `INSERT INTO types (name) VALUES (?)`.
-/

namespace PokePipeline

/-- Python exception escaping the helpers: `KeyError` on a missing required
dict key, `sqlite3.IntegrityError` on a violated constraint. -/
inductive PyErr where
  | keyError (key : String)
  | integrityError
  deriving DecidableEq

instance [DecidableEq ε] [DecidableEq α] : DecidableEq (Except ε α) := fun a b =>
  match a, b with
  | .ok x, .ok y =>
    if h : x = y then .isTrue (by rw [h]) else .isFalse (fun c => h (by cases c; rfl))
  | .error x, .error y =>
    if h : x = y then .isTrue (by rw [h]) else .isFalse (fun c => h (by cases c; rfl))
  | .ok _, .error _ => .isFalse (fun c => Except.noConfusion c)
  | .error _, .ok _ => .isFalse (fun c => Except.noConfusion c)

/-! ## Raw JSON documents (the fields read by the code) -/

/-- The sub-object `t["type"]` / `a["ability"]`: `{url, name}`, each key read
with `[...]` so present-null and absent differ. -/
structure NamedRef where
  url : Option (Option String)
  name : Option (Option String)
  deriving DecidableEq

/-- One element of `raw["types"]`. -/
structure TypeEntry where
  type : Option NamedRef
  slot : Option Int
  deriving DecidableEq

/-- One element of `raw["abilities"]`. -/
structure AbilityEntry where
  ability : Option NamedRef
  slot : Option Int
  is_hidden : Option Bool
  deriving DecidableEq

/-- The sub-object `s["stat"]`: `{name}`. -/
structure StatRef where
  name : Option (Option String)
  deriving DecidableEq

/-- One element of `raw["stats"]`. -/
structure StatEntry where
  stat : Option StatRef
  base_stat : Option Int
  effort : Option Int
  deriving DecidableEq

/-- The sub-object `raw["species"]`: `{url}` (a present but falsy `species`
value is collapsed into `none`, matching the truthiness test
`if raw.get("species")`). -/
structure SpeciesRef where
  url : Option (Option String)
  deriving DecidableEq

/-- A pokemon document as returned by `fetch_json(f"{BASE}/pokemon/{pid}")`.
`types`, `abilities`, `stats` default to `[]` via `raw.get(..., [])`. -/
structure RawPokemon where
  id : Option (Option Int)
  name : Option (Option String)
  height : Option Int
  weight : Option Int
  base_experience : Option Int
  species : Option SpeciesRef
  types : List TypeEntry
  abilities : List AbilityEntry
  stats : List StatEntry
  deriving DecidableEq

/-- The sub-object `species_data["evolution_chain"]`: `{url}`. -/
structure EvolutionChainRef where
  url : Option (Option String)
  deriving DecidableEq

/-- A species document (only `evolution_chain` is read; a present but falsy
value is collapsed into `none`, matching `species_data.get("evolution_chain")`
under `if`). -/
structure RawSpecies where
  evolution_chain : Option EvolutionChainRef
  deriving DecidableEq

/-- `d[k]`: the value when the key is present (a JSON null comes back as the
inner `none` of an optional value type, without raising), `KeyError`
otherwise. -/
def getKey (v : Option α) (k : String) : Except PyErr α :=
  match v with
  | some x => .ok x
  | none => .error (.keyError k)

/-! ## `int(...)` and trailing-segment parsing

Strings are manipulated through their character lists so that every function
here evaluates by kernel reduction. -/

/-- Python `s.split(sep)` for a one-character separator (always returns a
nonempty list; splitting the empty string yields `[[]]`). -/
def splitChar (sep : Char) (s : List Char) : List (List Char) :=
  s.foldr (fun c acc =>
    if c = sep then [] :: acc
    else match acc with
      | [] => [[c]]
      | g :: gs => (c :: g) :: gs) [[]]

/-- Python `s.rstrip(sep)` for a one-character strip set. -/
def rstripChar (sep : Char) (s : List Char) : List Char :=
  (s.reverse.dropWhile (· = sep)).reverse

/-- Strip whitespace from both ends (Python `int` ignores surrounding
whitespace). -/
def trimChars (s : List Char) : List Char :=
  ((s.dropWhile Char.isWhitespace).reverse.dropWhile Char.isWhitespace).reverse

/-- The integer denoted by a list of ASCII digits. -/
def digitsVal (ds : List Char) : Int :=
  ds.foldl (fun n c => n * 10 + ((c.toNat : Int) - 48)) 0

/-- Python's digit-run grammar for `int()`: one or more ASCII digits with
optional single underscores between digit groups (`digit (underscore? digit)*`).
The flag says whether a digit is required next (at the start and right after
an underscore). -/
def pyDigitsOk : List Char → Bool → Bool
  | [], expecting => !expecting
  | c :: rest, true => c.isDigit && pyDigitsOk rest false
  | c :: rest, false =>
    if c = '_' then pyDigitsOk rest true
    else c.isDigit && pyDigitsOk rest false

/-- Model of Python `int(s)` on a string: optional surrounding whitespace, an
optional sign, then an underscore-grouped digit run; `none` models the raised
`ValueError` (always caught at the call sites by a bare `except`). -/
def pyInt (s : String) : Option Int :=
  let t := trimChars s.data
  let (sign, digits) : Int × List Char :=
    match t with
    | '-' :: rest => (-1, rest)
    | '+' :: rest => (1, rest)
    | _ => (1, t)
  if pyDigitsOk digits true then
    some (sign * digitsVal (digits.filter (fun c => c ≠ '_')))
  else none

/-- `url.rstrip("/").split("/")[-1]`: the last path segment after stripping
trailing slashes.  (`str.split` always returns a nonempty list, so the
`getLastD` default is never used.) -/
def lastSegment (url : String) : List Char :=
  (splitChar '/' (rstripChar '/' url.data)).getLastD []

/-- `int(url.rstrip("/").split("/")[-1])` wrapped in a bare `try`: `some` the
parsed id, `none` when parsing fails — also when the url is Python `None`
(the `AttributeError` from `None.rstrip` is caught by the same `except`). -/
def parseTrailingInt (url : Option String) : Option Int :=
  match url with
  | none => none
  | some u => pyInt ⟨lastSegment u⟩

/-! ## Transform helpers (`extract_*`) -/

/-- Result of `extract_pokemon_basic`; `id` and `name` are optional because a
JSON null under those keys passes through extraction as Python `None`. -/
structure BasicInfo where
  id : Option Int
  name : Option String
  height : Option Int
  weight : Option Int
  base_experience : Option Int
  species_url : Option String
  deriving DecidableEq

/-- `extract_pokemon_basic(raw)`: direct projection.  `raw["id"]` and
`raw["name"]` raise `KeyError` when absent (a null value passes through);
`height`, `weight`, `base_experience` use `.get` (absent maps to `None`);
`species_url` is `raw["species"]["url"] if raw.get("species") else None`. -/
def extract_pokemon_basic (raw : RawPokemon) : Except PyErr BasicInfo := do
  let i ← getKey raw.id "id"
  let n ← getKey raw.name "name"
  let su ← match raw.species with
    | some sp => getKey sp.url "url"
    | none => pure (none : Option String)
  pure ⟨i, n, raw.height, raw.weight, raw.base_experience, su⟩

/-- `extract_types(raw)`: for each entry, `(type_id, type_name, slot)` where
`type_id` is parsed from the trailing segment of `t["type"]["url"]` (absent on
parse failure or a null url) and `slot` defaults to 0. -/
def extract_types (raw : RawPokemon) :
    Except PyErr (List (Option Int × Option String × Int)) :=
  raw.types.mapM (fun t => do
    let tr ← getKey t.type "type"
    let turl ← getKey tr.url "url"
    let tname ← getKey tr.name "name"
    pure (parseTrailingInt turl, tname, t.slot.getD 0))

/-- `extract_abilities(raw)`: like `extract_types`, additionally carrying
`is_hidden` (default `False`). -/
def extract_abilities (raw : RawPokemon) :
    Except PyErr (List (Option Int × Option String × Int × Bool)) :=
  raw.abilities.mapM (fun a => do
    let ar ← getKey a.ability "ability"
    let aurl ← getKey ar.url "url"
    let aname ← getKey ar.name "name"
    pure (parseTrailingInt aurl, aname, a.slot.getD 0, a.is_hidden.getD false))

/-- `extract_stats(raw)`: `(stat_name, base_stat, effort)` with numeric fields
defaulting to 0; a null stat name passes through as `none`. -/
def extract_stats (raw : RawPokemon) :
    Except PyErr (List (Option String × Int × Int)) :=
  raw.stats.mapM (fun s => do
    let sr ← getKey s.stat "stat"
    let sname ← getKey sr.name "name"
    pure (sname, s.base_stat.getD 0, s.effort.getD 0))

/-- `extract_evolution_chain(species_url)`: fetch the species document
(modelled by the oracle `fetchS`); when it carries an `evolution_chain`
reference, parse the chain id from its url, else `None`.  A failed fetch
yields `None`; an `evolution_chain` object without `"url"` raises. -/
def extract_evolution_chain (fetchS : String → Option RawSpecies)
    (species_url : String) : Except PyErr (Option Int) :=
  match fetchS species_url with
  | none => .ok none
  | some sd =>
    match sd.evolution_chain with
    | none => .ok none
    | some ec => do
        let curl ← getKey ec.url "url"
        pure (parseTrailingInt curl)

/-! ## Tables and write operations -/

/-- A SQLite table as an ordered list of rows `(primary key, payload)`. -/
abbrev Table (κ α : Type) := List (κ × α)

/-- Key behaviour of a table: `solid k` says every primary-key component of
`k` is non-NULL (only then can an `INSERT OR REPLACE` conflict), `owner k` is
the `pokemon_id` component (what the cascade from `pokemon` matches on). -/
class DbKey (κ : Type) where
  solid : κ → Bool
  owner : κ → Option Int

instance : DbKey Int := ⟨fun _ => true, fun i => some i⟩

instance : DbKey (Option Int × Int) := ⟨fun k => k.1.isSome, fun k => k.1⟩

instance : DbKey (Option Int × Option String) :=
  ⟨fun k => k.1.isSome && k.2.isSome, fun k => k.1⟩

/-- A write against a keyed table: `rep` is `INSERT OR REPLACE` (delete the
conflicting row — only a fully non-NULL key can conflict — and append the new
one), `wipe pid` is the `ON DELETE CASCADE` deletion of every row whose
`pokemon_id` is `pid`. -/
inductive DbOp (κ α : Type) where
  | rep (k : κ) (v : α)
  | wipe (pid : Int)

def applyOp [DecidableEq κ] [DbKey κ] (t : Table κ α) : DbOp κ α → Table κ α
  | .rep k v =>
    (if DbKey.solid k then t.filter (fun r => r.1 ≠ k) else t) ++ [(k, v)]
  | .wipe pid => t.filter (fun r => DbKey.owner r.1 ≠ some pid)

/-- `SELECT ... WHERE key = ?` on a keyed table: the first matching row's
value. -/
def lookupRow [DecidableEq κ] (k : κ) (t : Table κ α) : Option α :=
  (t.find? (fun r => r.1 = k)).map (fun r => r.2)

/-- A reference table (`types` / `abilities`): rows `(id, name)` with `id`
the INTEGER PRIMARY KEY and `name` UNIQUE NOT NULL (so stored names are
always proper strings). -/
abbrev RefTable := List (Int × String)

/-- The row stored in the `pokemon` table (key: the rowid, which is the
document id when one is given and a fresh rowid when the id is NULL; the
NOT NULL `name` is always a proper string). -/
structure PokemonRow where
  name : String
  height : Option Int
  weight : Option Int
  base_experience : Option Int
  species_url : Option String
  evolution_chain_id : Option Int
  deriving DecidableEq

/-- The whole database state: one field per table of `SCHEMA`. -/
structure DbState where
  pokemon : Table Int PokemonRow
  types : RefTable
  pokemon_types : Table (Option Int × Int) Int
  abilities : RefTable
  pokemon_abilities : Table (Option Int × Int) (Int × Bool)
  stats : Table (Option Int × Option String) (Int × Int)
  evolutions : List (Int × Int)
  deriving DecidableEq

/-- The freshly initialised database (`init_db` creates the empty tables). -/
def emptyDb : DbState := ⟨[], [], [], [], [], [], []⟩

/-- SQLite rowid allocation for `INSERT INTO types (name) VALUES (?)`
(`cursor.lastrowid`): one more than the largest rowid in use (1 on an empty
table). -/
def genId (t : RefTable) : Int :=
  (t.foldl (fun m r => max m r.1) 0) + 1

/-- The same rowid allocation for a NULL `INTEGER PRIMARY KEY` insert into
`pokemon`. -/
def nextRowid (pok : Table Int PokemonRow) : Int :=
  (pok.foldl (fun m r => max m r.1) 0) + 1

/-- The immediate foreign-key check of a child insert against `pokemon`:
a NULL `pokemon_id` satisfies the constraint, a non-NULL one must exist. -/
def fkPokemon (pok : Table Int PokemonRow) : Option Int → Bool
  | none => true
  | some p => pok.any (fun r => r.1 = p)

/-- `upsert_type(conn, type_id, type_name)`.  With an id: `INSERT OR IGNORE`
(a no-op when the id, the unique name, or the NOT NULL constraint on a null
name would be violated), returning the id as given.  Without an id:
`SELECT id FROM types WHERE name = ?` — a null name matches nothing (SQL
`name = NULL`), so the fall-through plain `INSERT` of the null name raises
`IntegrityError`; a proper name returns the existing id when found, else a
plain `INSERT` returns `lastrowid`. -/
def upsert_type (type_id : Option Int) (type_name : Option String)
    (t : RefTable) : Except PyErr (RefTable × Int) :=
  match type_id with
  | none =>
    match type_name with
    | none => .error .integrityError
    | some n =>
      match t.find? (fun r => r.2 = n) with
      | some r => .ok (t, r.1)
      | none => .ok (t ++ [(genId t, n)], genId t)
  | some i =>
    match type_name with
    | none => .ok (t, i)
    | some n =>
      if (t.any (fun r => r.1 = i)) ∨ (t.any (fun r => r.2 = n)) then .ok (t, i)
      else .ok (t ++ [(i, n)], i)

/-- `upsert_ability(conn, ability_id, ability_name)`: the body is identical to
`upsert_type` modulo the table it acts on, which is an argument here. -/
def upsert_ability (ability_id : Option Int) (ability_name : Option String)
    (t : RefTable) : Except PyErr (RefTable × Int) :=
  upsert_type ability_id ability_name t

/-- `insert_pokemon_type`: `INSERT OR REPLACE INTO pokemon_types` on the
composite key `(pokemon_id, type_id)`; the immediate foreign-key checks
against `pokemon` and `types` raise `IntegrityError` when violated. -/
def insert_pokemon_type (pokemon_id : Option Int) (type_id slot : Int)
    (s : DbState) : Except PyErr DbState :=
  if fkPokemon s.pokemon pokemon_id && s.types.any (fun r => r.1 = type_id) then
    .ok { s with
      pokemon_types := applyOp s.pokemon_types (.rep (pokemon_id, type_id) slot) }
  else .error .integrityError

/-- `insert_pokemon_ability`: `INSERT OR REPLACE INTO pokemon_abilities` on
the composite key `(pokemon_id, ability_id)`, with the same immediate
foreign-key checks. -/
def insert_pokemon_ability (pokemon_id : Option Int) (ability_id slot : Int)
    (is_hidden : Bool) (s : DbState) : Except PyErr DbState :=
  if fkPokemon s.pokemon pokemon_id &&
      s.abilities.any (fun r => r.1 = ability_id) then
    .ok { s with
      pokemon_abilities :=
        applyOp s.pokemon_abilities (.rep (pokemon_id, ability_id) (slot, is_hidden)) }
  else .error .integrityError

/-- `insert_stat`: `INSERT OR REPLACE INTO stats` on `(pokemon_id, name)`
(its only foreign key is `pokemon_id`; a NULL name is allowed by the schema,
and being part of the primary key it never conflicts, so such rows pile up). -/
def insert_stat (pokemon_id : Option Int) (name : Option String)
    (base_stat effort : Int) (s : DbState) : Except PyErr DbState :=
  if fkPokemon s.pokemon pokemon_id then
    .ok { s with
      stats := applyOp s.stats (.rep (pokemon_id, name) (base_stat, effort)) }
  else .error .integrityError

/-- The values written into the `pokemon` row. -/
def pokemonRowOf (nm : String) (b : BasicInfo) (chain : Option Int) : PokemonRow :=
  ⟨nm, b.height, b.weight, b.base_experience, b.species_url, chain⟩

/-- `upsert_pokemon`: `INSERT OR REPLACE INTO pokemon`.  A null name violates
NOT NULL (no default, so `OR REPLACE` aborts with `IntegrityError`).  With an
integer id, a conflicting old row is deleted, which (foreign keys on, with
`ON DELETE CASCADE`) also deletes that pokemon's child rows.  With a null id,
SQLite assigns a fresh rowid — no conflict, no cascade, one more row per
run. -/
def upsert_pokemon (b : BasicInfo) (chain : Option Int) (s : DbState) :
    Except PyErr DbState :=
  match b.name with
  | none => .error .integrityError
  | some nm =>
    match b.id with
    | some i =>
      let conflict := s.pokemon.any (fun r => r.1 = i)
      .ok { s with
        pokemon := applyOp s.pokemon (.rep i (pokemonRowOf nm b chain))
        pokemon_types :=
          if conflict then applyOp s.pokemon_types (.wipe i) else s.pokemon_types
        pokemon_abilities :=
          if conflict then applyOp s.pokemon_abilities (.wipe i)
          else s.pokemon_abilities
        stats := if conflict then applyOp s.stats (.wipe i) else s.stats }
    | none =>
      .ok { s with
        pokemon := s.pokemon ++ [(nextRowid s.pokemon, pokemonRowOf nm b chain)] }

/-- The `for t_id, t_name, slot in types` loop of `fetch_and_store_pokemon`:
resolve each type id through `upsert_type` (updating the `types` table before
the link insert runs, so a row this very entry created satisfies the foreign
key), then link it; a raised `IntegrityError` escapes. -/
def storeTypes (pid : Option Int) :
    List (Option Int × Option String × Int) → DbState → Except PyErr DbState
  | [], s => .ok s
  | e :: es, s =>
    match upsert_type e.1 e.2.1 s.types with
    | .error e0 => .error e0
    | .ok (tys, rid) =>
      match insert_pokemon_type pid rid e.2.2 { s with types := tys } with
      | .error e0 => .error e0
      | .ok s' => storeTypes pid es s'

/-- The `for a_id, a_name, slot, is_hidden in abilities` loop. -/
def storeAbilities (pid : Option Int) :
    List (Option Int × Option String × Int × Bool) → DbState → Except PyErr DbState
  | [], s => .ok s
  | e :: es, s =>
    match upsert_ability e.1 e.2.1 s.abilities with
    | .error e0 => .error e0
    | .ok (abs_, rid) =>
      match insert_pokemon_ability pid rid e.2.2.1 e.2.2.2 { s with abilities := abs_ } with
      | .error e0 => .error e0
      | .ok s' => storeAbilities pid es s'

/-- The `for stat_name, base_stat, effort in stats` loop. -/
def storeStats (pid : Option Int) :
    List (Option String × Int × Int) → DbState → Except PyErr DbState
  | [], s => .ok s
  | x :: xs, s =>
    match insert_stat pid x.1 x.2.1 x.2.2 s with
    | .error e0 => .error e0
    | .ok s' => storeStats pid xs s'

/-! ## The per-identifier pipeline -/

/-- Everything extracted from one fetched document before any write happens
(all the extraction in `fetch_and_store_pokemon` precedes the first insert). -/
structure EntityData where
  basic : BasicInfo
  ts : List (Option Int × Option String × Int)
  ab : List (Option Int × Option String × Int × Bool)
  ss : List (Option String × Int × Int)
  chain : Option Int
  deriving DecidableEq

/-- The extraction phase for one raw document, in source order: basic info,
types, abilities, stats, then the evolution chain id (the latter only when a
non-empty species url is present, matching
`extract_evolution_chain(basic["species_url"]) if basic["species_url"] else None`). -/
def extractAll (fetchS : String → Option RawSpecies) (raw : RawPokemon) :
    Except PyErr EntityData := do
  let basic ← extract_pokemon_basic raw
  let ts ← extract_types raw
  let ab ← extract_abilities raw
  let ss ← extract_stats raw
  let chain ← match basic.species_url with
    | some su =>
        if su = "" then pure (none : Option Int)
        else extract_evolution_chain fetchS su
    | none => pure (none : Option Int)
  pure ⟨basic, ts, ab, ss, chain⟩

/-- The write phase for one entity, in source order: pokemon row, type links,
ability links, stat rows.  An `IntegrityError` from any insert escapes with
the per-entity transaction still open; the connection teardown then rolls the
entity's writes back, which the caller models by keeping the pre-entity
state. -/
def applyEntity (d : EntityData) (s : DbState) : Except PyErr DbState :=
  match upsert_pokemon d.basic d.chain s with
  | .error e => .error e
  | .ok s1 =>
    match storeTypes d.basic.id d.ts s1 with
    | .error e => .error e
    | .ok s2 =>
      match storeAbilities d.basic.id d.ab s2 with
      | .error e => .error e
      | .ok s3 => storeStats d.basic.id d.ss s3

/-- One iteration of the loop in `fetch_and_store_pokemon`: fetch the document
(`None` means skip), extract, write, commit.  An uncaught `KeyError` from the
extraction phase or `IntegrityError` from the write phase escapes (there is no
try/except in the loop). -/
def processOne (fetchP : Int → Option RawPokemon) (fetchS : String → Option RawSpecies)
    (s : DbState) (pid : Int) : Except PyErr DbState :=
  match fetchP pid with
  | none => .ok s
  | some raw =>
    match extractAll fetchS raw with
    | .error e => .error e
    | .ok d => applyEntity d s

/-- `fetch_and_store_pokemon(conn, pokemon_ids)`: process the ids in order.
A raised error aborts the whole run; the erroring identifier's uncommitted
writes are rolled back when the connection closes, so the state from before
it is returned together with the escaped error. -/
def fetch_and_store_pokemon (fetchP : Int → Option RawPokemon)
    (fetchS : String → Option RawSpecies) (ids : List Int) (s : DbState) :
    DbState × Option PyErr :=
  match ids with
  | [] => (s, none)
  | pid :: rest =>
    match processOne fetchP fetchS s pid with
    | .ok s' => fetch_and_store_pokemon fetchP fetchS rest s'
    | .error e => (s, some e)

/-! ## Denotation of a run as write-operation sequences (proof aid for the
idempotence analysis; not part of the embedding itself) -/

/-- Outcome of one `requests.get`: a response with a status code and an
(already parsed) body, or a raised `requests.RequestException`. -/
inductive HttpOutcome (α : Type) where
  | res (status : Int) (body : α)
  | exn

/-- The retry loop of `fetch_json`, with `attempt` the 1-based attempt number
and `remaining` how many attempts are left.  Returns the result, the number
of GET attempts performed, and the total time slept (`time.sleep(backoff *
attempt)` runs after every attempt that neither returned 200 nor 404,
including the last one). -/
def fetchAux (resp : Nat → HttpOutcome α) (backoff : ℚ) :
    Nat → Nat → Option α × Nat × ℚ
  | _, 0 => (none, 0, 0)
  | attempt, n + 1 =>
    let failcase :=
      let (r, a, t) := fetchAux resp backoff (attempt + 1) n
      (r, a + 1, backoff * (attempt : ℚ) + t)
    match resp attempt with
    | .res status body =>
      if status = 200 then (some body, 1, 0)
      else if status = 404 then (none, 1, 0)
      else failcase
    | .exn => failcase

/-- `fetch_json(url, max_retries, backoff)` over a response oracle indexed by
attempt number: result, attempts performed, total sleep. -/
def fetch_json (resp : Nat → HttpOutcome α) (max_retries : Nat) (backoff : ℚ) :
    Option α × Nat × ℚ :=
  fetchAux resp backoff 1 max_retries

/-! ## Evolution chain flattener (spec-modelled) -/

/-- Modelled from the spec: the Evolution Chain Flattener of spec section 4.3 is
not part of `src/pokepipeline.py` (which only derives the numeric chain id in
`extract_evolution_chain`); the repository code holding it is not under
`src/`.  A chain document node: a species name and the `evolves_to` children. -/
inductive EvoTree where
  | node (species : String) (evolves_to : List EvoTree)

def EvoTree.species : EvoTree → String
  | .node s _ => s

/-- Modelled from the spec: depth-first pre-order flattening — visit a node,
emit one `(parent species, child species)` edge per direct child, then recurse
into each child in the order given. -/
def flatten_chain : EvoTree → List (String × String)
  | .node s cs =>
    cs.map (fun c => (s, c.species)) ++
      cs.attach.flatMap (fun c => flatten_chain c.1)
termination_by t => sizeOf t
decreasing_by
  have := List.sizeOf_lt_of_mem c.2
  simp only [EvoTree.node.sizeOf_spec]
  omega

/-! ## Concrete oracles and documents used by the witness and counterexample
theorems -/

/-- Always failing pokemon-response oracle used for concrete witnesses. -/
def allServerError : Nat → HttpOutcome Unit := fun _ => .res 500 ()

/-- 404-first response oracle used for concrete witnesses. -/
def always404 : Nat → HttpOutcome Unit := fun _ => .res 404 ()

/-- A document with one type association whose url ends in `/type/3/`. -/
def typeDocOk : RawPokemon :=
  ⟨some (some 10), some (some "x"), none, none, none, none,
    [⟨some ⟨some (some "https://pokeapi.co/api/v2/type/3/"), some (some "grass")⟩,
      some 1⟩], [], []⟩

/-- A document with one type association whose url has no trailing integer. -/
def typeDocBad : RawPokemon :=
  ⟨some (some 10), some (some "x"), none, none, none, none,
    [⟨some ⟨some (some "https://pokeapi.co/api/v2/type/unknown/"),
      some (some "mystery")⟩, some 1⟩], [], []⟩

/-- Oracle for the C3 scenario: id 1 fetches a document with no `name` key
(fatal to extraction), id 2 fetches a well-formed document. -/
def c3FetchP : Int → Option RawPokemon := fun n =>
  if n = 1 then some ⟨some (some 1), none, none, none, none, none, [], [], []⟩
  else if n = 2 then
    some ⟨some (some 2), some (some "ivysaur"), none, none, none, none, [], [], []⟩
  else none

/-- Species oracle whose every fetch fails. -/
def noSpecies : String → Option RawSpecies := fun _ => none

/-- The C8-witness document for entity 25 (one type, one ability, one stat,
and a species url whose fetch will fail). -/
def c8Doc : RawPokemon :=
  ⟨some (some 25), some (some "pikachu"), some 4, some 60, some 112,
    some ⟨some (some "s/25/")⟩,
    [⟨some ⟨some (some "t/13/"), some (some "electric")⟩, some 1⟩],
    [⟨some ⟨some (some "a/9/"), some (some "static")⟩, some 1, some false⟩],
    [⟨some ⟨some (some "speed")⟩, some 90, some 2⟩]⟩

def c8FetchP : Int → Option RawPokemon := fun n => if n = 25 then some c8Doc else none

def c8Basic : BasicInfo :=
  ⟨some 25, some "pikachu", some 4, some 60, some 112, some "s/25/"⟩

/-- The state the C8 witness entity's write phase produces from `emptyDb`. -/
def c8Final : DbState :=
  ⟨[(25, ⟨"pikachu", some 4, some 60, some 112, some "s/25/", none⟩)],
    [(13, "electric")], [((some 25, 13), 1)],
    [(9, "static")], [((some 25, 9), (1, false))],
    [((some 25, some "speed"), (90, 2))], []⟩

/-- A document that introduces type name "grass" under id 7. -/
def fkDoc1 : RawPokemon :=
  ⟨some (some 1), some (some "bulbasaur"), none, none, none, none,
    [⟨some ⟨some (some "t/7/"), some (some "grass")⟩, some 1⟩], [], []⟩

/-- A document whose type url carries id 3 but reuses the name "grass": the
`INSERT OR IGNORE` is skipped on the name conflict and the link insert then
violates the foreign key. -/
def fkDoc2 : RawPokemon :=
  ⟨some (some 2), some (some "ivysaur"), none, none, none,
    some ⟨some (some "s/2/")⟩,
    [⟨some ⟨some (some "t/3/"), some (some "grass")⟩, some 1⟩], [], []⟩

def fkFetchP : Int → Option RawPokemon := fun n =>
  if n = 1 then some fkDoc1 else if n = 2 then some fkDoc2 else none

/-- A state with a pokemon row 1 and an ability row 9, on which the C7
witness's two link writes execute. -/
def c7Start : DbState :=
  ⟨[(1, ⟨"pikachu", none, none, none, none, none⟩)], [], [], [(9, "static")],
    [], [], []⟩

def c7Mid : DbState :=
  ⟨[(1, ⟨"pikachu", none, none, none, none, none⟩)], [], [], [(9, "static")],
    [((some 1, 9), (1, false))], [], []⟩

def c7End : DbState :=
  ⟨[(1, ⟨"pikachu", none, none, none, none, none⟩)], [], [], [(9, "static")],
    [((some 1, 9), (1, true))], [], []⟩

/-! ## Generic table lemmas -/

theorem filter_key_filter_ne [DecidableEq κ] (t : Table κ α) (k : κ) :
    (t.filter (fun r => r.1 ≠ k)).filter (fun r => r.1 = k) = [] := by
  induction t with
  | nil => rfl
  | cons r t ih => by_cases h : r.1 = k <;> simp [List.filter_cons, h, ih]

theorem applyOp_rep_filter_key [DecidableEq κ] [DbKey κ] (t : Table κ α) (k : κ)
    (v : α) (hs : DbKey.solid (κ := κ) k = true) :
    (applyOp t (.rep k v)).filter (fun r => r.1 = k) = [(k, v)] := by
  simp [applyOp, hs, List.filter_append, filter_key_filter_ne]

/-! ## Frame lemmas: which tables each successful write leaves untouched -/

theorem insert_pokemon_type_frame (pid : Option Int) (rid slot : Int)
    (s s' : DbState) (h : insert_pokemon_type pid rid slot s = .ok s') :
    s'.pokemon = s.pokemon ∧ s'.types = s.types ∧ s'.abilities = s.abilities ∧
    s'.pokemon_abilities = s.pokemon_abilities ∧ s'.stats = s.stats ∧
    s'.evolutions = s.evolutions := by
  unfold insert_pokemon_type at h
  split at h
  · cases h
    exact ⟨rfl, rfl, rfl, rfl, rfl, rfl⟩
  · cases h

theorem insert_pokemon_ability_frame (pid : Option Int) (rid slot : Int)
    (hid : Bool) (s s' : DbState)
    (h : insert_pokemon_ability pid rid slot hid s = .ok s') :
    s'.pokemon = s.pokemon ∧ s'.types = s.types ∧ s'.abilities = s.abilities ∧
    s'.pokemon_types = s.pokemon_types ∧ s'.stats = s.stats ∧
    s'.evolutions = s.evolutions := by
  unfold insert_pokemon_ability at h
  split at h
  · cases h
    exact ⟨rfl, rfl, rfl, rfl, rfl, rfl⟩
  · cases h

theorem insert_stat_frame (pid : Option Int) (nm : Option String) (b ef : Int)
    (s s' : DbState) (h : insert_stat pid nm b ef s = .ok s') :
    s'.pokemon = s.pokemon ∧ s'.types = s.types ∧ s'.abilities = s.abilities ∧
    s'.pokemon_types = s.pokemon_types ∧
    s'.pokemon_abilities = s.pokemon_abilities ∧
    s'.evolutions = s.evolutions := by
  unfold insert_stat at h
  split at h
  · cases h
    exact ⟨rfl, rfl, rfl, rfl, rfl, rfl⟩
  · cases h

theorem storeTypes_frame (pid : Option Int)
    (ts : List (Option Int × Option String × Int)) :
    ∀ s s' : DbState, storeTypes pid ts s = .ok s' →
      s'.pokemon = s.pokemon ∧ s'.abilities = s.abilities ∧
      s'.pokemon_abilities = s.pokemon_abilities ∧ s'.stats = s.stats ∧
      s'.evolutions = s.evolutions := by
  induction ts with
  | nil =>
    intro s s' h
    cases h
    exact ⟨rfl, rfl, rfl, rfl, rfl⟩
  | cons e es ih =>
    intro s s' h
    simp only [storeTypes] at h
    split at h
    · cases h
    · split at h
      · cases h
      · rename_i tys rid _ smid hins
        obtain ⟨f1, f2, f3, f4, f5, f6⟩ := insert_pokemon_type_frame _ _ _ _ _ hins
        obtain ⟨g1, g2, g3, g4, g5⟩ := ih smid s' h
        exact ⟨g1.trans f1, g2.trans f3, g3.trans f4, g4.trans f5, g5.trans f6⟩

theorem storeAbilities_frame (pid : Option Int)
    (ab : List (Option Int × Option String × Int × Bool)) :
    ∀ s s' : DbState, storeAbilities pid ab s = .ok s' →
      s'.pokemon = s.pokemon ∧ s'.types = s.types ∧
      s'.pokemon_types = s.pokemon_types ∧ s'.stats = s.stats ∧
      s'.evolutions = s.evolutions := by
  induction ab with
  | nil =>
    intro s s' h
    cases h
    exact ⟨rfl, rfl, rfl, rfl, rfl⟩
  | cons e es ih =>
    intro s s' h
    simp only [storeAbilities] at h
    split at h
    · cases h
    · split at h
      · cases h
      · rename_i abs_ rid _ smid hins
        obtain ⟨f1, f2, f3, f4, f5, f6⟩ := insert_pokemon_ability_frame _ _ _ _ _ _ hins
        obtain ⟨g1, g2, g3, g4, g5⟩ := ih smid s' h
        exact ⟨g1.trans f1, g2.trans f2, g3.trans f4, g4.trans f5, g5.trans f6⟩

theorem storeStats_frame (pid : Option Int) (ss : List (Option String × Int × Int)) :
    ∀ s s' : DbState, storeStats pid ss s = .ok s' →
      s'.pokemon = s.pokemon ∧ s'.types = s.types ∧ s'.abilities = s.abilities ∧
      s'.pokemon_types = s.pokemon_types ∧
      s'.pokemon_abilities = s.pokemon_abilities ∧
      s'.evolutions = s.evolutions := by
  induction ss with
  | nil =>
    intro s s' h
    cases h
    exact ⟨rfl, rfl, rfl, rfl, rfl, rfl⟩
  | cons x xs ih =>
    intro s s' h
    simp only [storeStats] at h
    split at h
    · cases h
    · rename_i smid hins
      obtain ⟨f1, f2, f3, f4, f5, f6⟩ := insert_stat_frame _ _ _ _ _ _ hins
      obtain ⟨g1, g2, g3, g4, g5, g6⟩ := ih smid s' h
      exact ⟨g1.trans f1, g2.trans f2, g3.trans f3, g4.trans f4, g5.trans f5,
        g6.trans f6⟩

theorem upsert_pokemon_evolutions (b : BasicInfo) (chain : Option Int)
    (s s' : DbState) (h : upsert_pokemon b chain s = .ok s') :
    s'.evolutions = s.evolutions := by
  unfold upsert_pokemon at h
  split at h
  · cases h
  · split at h
    · cases h
      rfl
    · cases h
      rfl

theorem applyEntity_evolutions (d : EntityData) (s s' : DbState)
    (h : applyEntity d s = .ok s') : s'.evolutions = s.evolutions := by
  unfold applyEntity at h
  split at h
  · cases h
  · rename_i s1 h1
    split at h
    · cases h
    · rename_i s2 h2
      split at h
      · cases h
      · rename_i s3 h3
        calc s'.evolutions = s3.evolutions := (storeStats_frame _ _ _ _ h).2.2.2.2.2
        _ = s2.evolutions := (storeAbilities_frame _ _ _ _ h3).2.2.2.2
        _ = s1.evolutions := (storeTypes_frame _ _ _ _ h2).2.2.2.2
        _ = s.evolutions := upsert_pokemon_evolutions _ _ _ _ h1

theorem processOne_evolutions (fetchP : Int → Option RawPokemon)
    (fetchS : String → Option RawSpecies) (s : DbState) (pid : Int) (s' : DbState)
    (h : processOne fetchP fetchS s pid = .ok s') : s'.evolutions = s.evolutions := by
  unfold processOne at h
  split at h
  · cases h
    rfl
  · split at h
    · cases h
    · exact applyEntity_evolutions _ s s' h

/-- C10: no operation of the pipeline inserts, updates, or deletes a row of the
`evolutions` table: after `fetch_and_store_pokemon`, for every identifier list,
every fetch oracle and every starting state, the `evolutions` table equals its
initial contents (in particular it stays empty when starting from the fresh
database `emptyDb`, whose `evolutions` table is `[]`). -/
theorem evolutions_table_never_written (fetchP : Int → Option RawPokemon)
    (fetchS : String → Option RawSpecies) (ids : List Int) (s : DbState) :
    ((fetch_and_store_pokemon fetchP fetchS ids s).1).evolutions = s.evolutions := by
  induction ids generalizing s with
  | nil => rfl
  | cons pid rest ih =>
    unfold fetch_and_store_pokemon
    cases h : processOne fetchP fetchS s pid with
    | ok s' => rw [ih s', processOne_evolutions fetchP fetchS s pid s' h]
    | error e => rfl

/-- C7: persisting the ability association `(e, a)` with `slot = 1,
is_hidden = false`, and then persisting the same pair again with `slot = 1,
is_hidden = true` — both writes executing, i.e. passing their foreign-key
checks — leaves exactly one row for that pair in `pokemon_abilities`, and that
row carries `is_hidden = true`: the later `INSERT OR REPLACE` fully replaces
the earlier row (no duplicate, no stale row), whatever the table contained
before. -/
theorem ability_link_replaced (s s1 s2 : DbState) (e a : Int)
    (h1 : insert_pokemon_ability (some e) a 1 false s = .ok s1)
    (h2 : insert_pokemon_ability (some e) a 1 true s1 = .ok s2) :
    s2.pokemon_abilities.filter (fun r => r.1 = ((some e : Option Int), a)) =
      [((some e, a), (1, true))] := by
  unfold insert_pokemon_ability at h1 h2
  split at h1
  case isTrue hc1 =>
    cases h1
    dsimp only at h2
    rw [if_pos hc1] at h2
    cases h2
    dsimp only
    exact applyOp_rep_filter_key _ ((some e : Option Int), a) ((1 : Int), true) rfl
  case isFalse hc1 => cases h1

theorem ability_link_replaced_witness :
    c7End.pokemon_abilities.filter (fun r => r.1 = ((some 1 : Option Int), 9)) =
      [((some 1, 9), (1, true))] :=
  ability_link_replaced c7Start c7Mid c7End 1 9 (by decide) (by decide)

/-- C2: the evolution chain flattener (modelled from the spec, see
`flatten_chain`) emits, at each node, one `(parent, child)` edge per direct
child and then recurses into each child in order (depth-first pre-order); on
the tree `A -> [B, C]`, `B -> [D]` it returns exactly
`[(A,B), (A,C), (B,D)]` in that order. -/
theorem flatten_chain_preorder :
    (∀ (s : String) (cs : List EvoTree),
      flatten_chain (.node s cs) =
        cs.map (fun c => (s, c.species)) ++ cs.flatMap flatten_chain) ∧
    flatten_chain
        (.node "A" [.node "B" [.node "D" []], .node "C" []]) =
      [("A", "B"), ("A", "C"), ("B", "D")] := by
  have hnode : ∀ (s : String) (cs : List EvoTree),
      flatten_chain (.node s cs) =
        cs.map (fun c => (s, c.species)) ++ cs.flatMap flatten_chain := by
    intro s cs
    rw [flatten_chain]
    congr 1
    rw [List.flatMap_def, List.flatMap_def, List.attach_map_val cs flatten_chain]
  refine ⟨hnode, ?_⟩
  rw [hnode]
  simp [List.flatMap_cons, hnode, EvoTree.species]

/-! ## fetch_json retry behaviour (C4, C5) -/

/-- C4: with `max_retries = 3` and base backoff `b`, fetching a URL whose
every response has HTTP status 500 performs exactly 3 GET attempts, returns
the absent-result sentinel `none`, and sleeps `b*1 + b*2 + b*3` in total
(each wait is backoff times the attempt number — linear), so the total sleep
is at least `b*(1+2+3)`. -/
theorem retry_exhaustion_on_500 (resp : Nat → HttpOutcome α) (b : ℚ)
    (h : ∀ n, ∃ body, resp n = .res 500 body) :
    fetch_json resp 3 b = (none, 3, b * (1 + 2 + 3)) ∧
    b * (1 + 2 + 3) ≤ (fetch_json resp 3 b).2.2 := by
  obtain ⟨x1, h1⟩ := h 1
  obtain ⟨x2, h2⟩ := h 2
  obtain ⟨x3, h3⟩ := h 3
  have s0 : fetchAux resp b 4 0 = (none, 0, 0) := rfl
  have s1 : fetchAux resp b 3 1 = (none, 1, b * 3 + 0) := by
    rw [show (1 : Nat) = 0 + 1 from rfl, fetchAux, h3]
    norm_num [s0]
  have s2 : fetchAux resp b 2 2 = (none, 2, b * 2 + (b * 3 + 0)) := by
    rw [show (2 : Nat) = 1 + 1 from rfl, fetchAux, h2]
    norm_num [s1]
  have he : fetch_json resp 3 b = (none, 3, b * (1 + 2 + 3)) := by
    show fetchAux resp b 1 (2 + 1) = _
    rw [fetchAux, h1]
    norm_num [s2]
    ring
  exact ⟨he, by rw [he]⟩

/-- C5: when the first response has HTTP status 404, `fetch_json` returns the
absent-result sentinel after exactly 1 GET attempt, with no retry and no
sleep, for any retry budget of at least one attempt. -/
theorem notfound_short_circuit (resp : Nat → HttpOutcome α) (b : ℚ) (mr : Nat)
    (body : α) (hmr : 1 ≤ mr) (h404 : resp 1 = .res 404 body) :
    fetch_json resp mr b = (none, 1, 0) := by
  obtain ⟨n, rfl⟩ : ∃ n, mr = n + 1 := ⟨mr - 1, by omega⟩
  show fetchAux resp b 1 (n + 1) = _
  rw [fetchAux, h404]
  norm_num

theorem retry_exhaustion_on_500_witness :
    fetch_json allServerError 3 (1/2 : ℚ) = (none, 3, (1/2 : ℚ) * (1 + 2 + 3)) ∧
    (1/2 : ℚ) * (1 + 2 + 3) ≤ (fetch_json allServerError 3 (1/2 : ℚ)).2.2 :=
  retry_exhaustion_on_500 allServerError (1/2) (fun _ => ⟨(), rfl⟩)

theorem notfound_short_circuit_witness :
    fetch_json always404 3 (1/2 : ℚ) = (none, 1, 0) :=
  notfound_short_circuit always404 (1/2) 3 () (by norm_num) rfl

/-! ## Type reference id derivation and lookup-or-create (C6) -/

/-- C6: the type reference id is parsed from the trailing path segment of the
type url (`.../type/3/` yields id 3); a url with no trailing integer yields an
absent id, and `upsert_type` then resolves by unique name alone: it returns the
existing row's id when a row with that name exists, otherwise inserts a new row
and returns its generated id. -/
theorem type_ref_id_derivation :
    extract_types typeDocOk = .ok [(some 3, some "grass", 1)] ∧
    extract_types typeDocBad = .ok [(none, some "mystery", 1)] ∧
    (∀ (t : RefTable) (n : String) (r : Int × String),
      t.find? (fun row => row.2 = n) = some r →
        upsert_type none (some n) t = .ok (t, r.1)) ∧
    (∀ (t : RefTable) (n : String),
      t.find? (fun row => row.2 = n) = none →
        upsert_type none (some n) t = .ok (t ++ [(genId t, n)], genId t)) := by
  refine ⟨by decide, by decide, ?_, ?_⟩
  · intro t n r h
    simp [upsert_type, h]
  · intro t n h
    simp [upsert_type, h]

theorem type_ref_id_derivation_witness :
    upsert_type none (some "x") [((5 : Int), "x")] = .ok ([((5 : Int), "x")], 5) ∧
    upsert_type none (some "y") ([] : RefTable) = .ok ([((1 : Int), "y")], 1) :=
  ⟨type_ref_id_derivation.2.2.1 [(5, "x")] "x" (5, "x") (by decide),
   type_ref_id_derivation.2.2.2 [] "y" (by decide)⟩

/-! ## Required and optional keys in basic extraction (C9) -/

/-- C9 counterexample: a document with `id` and `name` but no `species` key is
extracted successfully (`species_url` becomes `none`), refuting the claim that
a missing `species` key raises a fatal error. -/
theorem basic_extraction_missing_species_ok :
    extract_pokemon_basic
        ⟨some (some 1), some (some "a"), none, none, none, none, [], [], []⟩ =
      .ok ⟨some 1, some "a", none, none, none, none⟩ := by
  decide

/-- C9 (amended): basic extraction raises `KeyError` when `id` or `name` is
missing; a missing `species` key (like the optional `height`, `weight`,
`base_experience`) maps to an absent value rather than an error or a zero. -/
theorem basic_extraction_required_keys (raw : RawPokemon) (i : Option Int)
    (n : Option String) :
    (raw.id = none → extract_pokemon_basic raw = .error (.keyError "id")) ∧
    (raw.id = some i → raw.name = none →
      extract_pokemon_basic raw = .error (.keyError "name")) ∧
    (raw.id = some i → raw.name = some n → raw.species = none →
      extract_pokemon_basic raw =
        .ok ⟨i, n, raw.height, raw.weight, raw.base_experience, none⟩) := by
  refine ⟨fun h1 => ?_, fun h1 h2 => ?_, fun h1 h2 h3 => ?_⟩
  · simp [extract_pokemon_basic, h1, getKey, Bind.bind, Except.bind]
  · simp [extract_pokemon_basic, h1, h2, getKey, Bind.bind, Except.bind]
  · simp [extract_pokemon_basic, h1, h2, h3, getKey, Bind.bind, Except.bind, Pure.pure,
      Except.pure]

theorem basic_extraction_required_keys_witness :
    extract_pokemon_basic
        ⟨none, some (some "b"), none, none, none, none, [], [], []⟩ =
      .error (.keyError "id") ∧
    extract_pokemon_basic
        ⟨some (some 1), none, none, none, none, none, [], [], []⟩ =
      .error (.keyError "name") ∧
    extract_pokemon_basic
        ⟨some (some 7), some (some "mew"), some 4, none, none, none, [], [], []⟩ =
      .ok ⟨some 7, some "mew", some 4, none, none, none⟩ :=
  ⟨(basic_extraction_required_keys
      ⟨none, some (some "b"), none, none, none, none, [], [], []⟩ none none).1 rfl,
   (basic_extraction_required_keys
      ⟨some (some 1), none, none, none, none, none, [], [], []⟩ (some 1) none).2.1
      rfl rfl,
   (basic_extraction_required_keys
      ⟨some (some 7), some (some "mew"), some 4, none, none, none, [], [], []⟩
      (some 7) (some "mew")).2.2 rfl rfl rfl⟩

/-! ## Per-identifier errors abort the run (C3) -/

/-- C3 counterexample: with ids `[1, 2]`, the `KeyError` raised while
extracting id 1 aborts the whole run — id 2 is never processed (the final
state is still the empty database) even though processing `[2]` alone
succeeds and stores a row.  This refutes the claim that the orchestrator
catches per-identifier errors and continues. -/
theorem run_aborts_on_extraction_error :
    fetch_and_store_pokemon c3FetchP noSpecies [1, 2] emptyDb =
      (emptyDb, some (.keyError "name")) ∧
    (fetch_and_store_pokemon c3FetchP noSpecies [2] emptyDb).2 = none ∧
    (fetch_and_store_pokemon c3FetchP noSpecies [2] emptyDb).1.pokemon ≠ [] := by
  exact ⟨by decide, by decide, by decide⟩

/-- C3 (amended): a fatal per-identifier error (a `KeyError` escaping the
extraction phase) aborts the whole run: `fetch_and_store_pokemon` stops at the
failing identifier, returns the state committed so far, and the remaining
identifiers are not processed.  Only fetch failures (`None` documents) are
skipped with processing continuing. -/
theorem extraction_error_aborts_run (fetchP : Int → Option RawPokemon)
    (fetchS : String → Option RawSpecies) (s : DbState) (pid : Int)
    (rest : List Int) (e : PyErr)
    (h : processOne fetchP fetchS s pid = .error e) :
    fetch_and_store_pokemon fetchP fetchS (pid :: rest) s = (s, some e) := by
  unfold fetch_and_store_pokemon
  rw [h]

theorem extraction_error_aborts_run_witness :
    fetch_and_store_pokemon c3FetchP noSpecies [1, 2] emptyDb =
      (emptyDb, some (.keyError "name")) :=
  extraction_error_aborts_run c3FetchP noSpecies emptyDb 1 [2] (.keyError "name")
    (by decide)

/-! ## Optional sub-fetch failure (C8) -/

theorem find?_key_filter_ne [DecidableEq κ] (t : Table κ α) (k : κ) :
    (t.filter (fun r => r.1 ≠ k)).find? (fun r => r.1 = k) = none := by
  rw [List.find?_eq_none]
  intro x hx
  simp only [List.mem_filter, decide_not, Bool.not_eq_eq_eq_not, Bool.not_true,
    decide_eq_false_iff_not] at hx
  simp [hx.2]

theorem lookupRow_applyOp_rep [DecidableEq κ] [DbKey κ] (t : Table κ α) (k : κ)
    (v : α) (hs : DbKey.solid (κ := κ) k = true) :
    lookupRow k (applyOp t (.rep k v)) = some v := by
  simp [lookupRow, applyOp, hs, List.find?_append, find?_key_filter_ne]

/-- A successful entity write leaves exactly the pokemon-row replace on the
`pokemon` table (the child stores do not touch it). -/
theorem applyEntity_pokemon (d : EntityData) (s s' : DbState) (i : Int)
    (nm : String) (hid : d.basic.id = some i) (hnm : d.basic.name = some nm)
    (h : applyEntity d s = .ok s') :
    s'.pokemon = applyOp s.pokemon (.rep i (pokemonRowOf nm d.basic d.chain)) := by
  unfold applyEntity at h
  split at h
  · cases h
  · rename_i s1 h1
    split at h
    · cases h
    · rename_i s2 h2
      split at h
      · cases h
      · rename_i s3 h3
        have hp : s'.pokemon = s1.pokemon := by
          calc s'.pokemon = s3.pokemon := (storeStats_frame _ _ _ _ h).1
          _ = s2.pokemon := (storeAbilities_frame _ _ _ _ h3).1
          _ = s1.pokemon := (storeTypes_frame _ _ _ _ h2).1
        unfold upsert_pokemon at h1
        split at h1
        · cases h1
        · rename_i nm' hnm'
          split at h1
          · rename_i i' hid'
            cases h1
            rw [hid'] at hid
            cases hid
            rw [hnm'] at hnm
            cases hnm
            rw [hp]
          · rename_i hid'
            rw [hid'] at hid
            cases hid

/-- C8 counterexample (reachable input): the first document introduces type
name "grass" under id 7; the second carries url id 3 with the same name, so
its link insert violates the `pokemon_types.type_id` foreign key.  The second
entity's species sub-fetch fails (the species oracle returns `None`), yet
nothing of that entity is persisted: the run aborts with `IntegrityError` and
the final state is exactly the state after the first identifier alone.  This
refutes the claim that such an entity is still fully persisted. -/
theorem link_integrity_error_aborts_entity :
    (fetch_and_store_pokemon fkFetchP noSpecies [1, 2] emptyDb).2 =
      some PyErr.integrityError ∧
    (fetch_and_store_pokemon fkFetchP noSpecies [1, 2] emptyDb).1 =
      (fetch_and_store_pokemon fkFetchP noSpecies [1] emptyDb).1 ∧
    lookupRow 2
      (fetch_and_store_pokemon fkFetchP noSpecies [1, 2] emptyDb).1.pokemon =
      none := by
  exact ⟨by decide, by decide, by decide⟩

/-- C8 (amended): when the species sub-fetch for an entity fails (the only
sub-fetch the code performs: the chain id is derived from the species
document), the failure itself is non-fatal: the pipeline proceeds into the
entity's whole write phase with the evolution-chain field absent, and provided
those writes execute without a constraint violation, the entity's row (stored
with `evolution_chain_id` null), type associations, ability associations and
stat rows are fully persisted. -/
theorem species_fetch_failure_nonfatal (fetchP : Int → Option RawPokemon)
    (fetchS : String → Option RawSpecies) (s : DbState) (pid : Int)
    (raw : RawPokemon) (basic : BasicInfo)
    (ts : List (Option Int × Option String × Int))
    (ab : List (Option Int × Option String × Int × Bool))
    (ss : List (Option String × Int × Int)) (su : String) (i : Int) (nm : String)
    (s' : DbState)
    (hP : fetchP pid = some raw)
    (hb : extract_pokemon_basic raw = .ok basic)
    (ht : extract_types raw = .ok ts)
    (ha : extract_abilities raw = .ok ab)
    (hs : extract_stats raw = .ok ss)
    (hsu : basic.species_url = some su) (hne : su ≠ "")
    (hS : fetchS su = none)
    (hw : applyEntity ⟨basic, ts, ab, ss, none⟩ s = .ok s')
    (hid : basic.id = some i) (hnm : basic.name = some nm) :
    processOne fetchP fetchS s pid = .ok s' ∧
    lookupRow i s'.pokemon = some (pokemonRowOf nm basic none) := by
  have hx : extractAll fetchS raw = .ok ⟨basic, ts, ab, ss, none⟩ := by
    simp [extractAll, hb, ht, ha, hs, hsu, hne, extract_evolution_chain, hS,
      Bind.bind, Except.bind, Pure.pure, Except.pure]
  constructor
  · simp [processOne, hP, hx, hw]
  · have hpok := applyEntity_pokemon ⟨basic, ts, ab, ss, none⟩ s s' i nm hid hnm hw
    rw [hpok]
    exact lookupRow_applyOp_rep s.pokemon i (pokemonRowOf nm basic none) rfl

theorem species_fetch_failure_nonfatal_witness :
    processOne c8FetchP noSpecies emptyDb 25 = .ok c8Final ∧
    lookupRow 25 c8Final.pokemon = some (pokemonRowOf "pikachu" c8Basic none) :=
  species_fetch_failure_nonfatal c8FetchP noSpecies emptyDb 25 c8Doc c8Basic
    [(some 13, some "electric", 1)] [(some 9, some "static", 1, false)]
    [(some "speed", 90, 2)] "s/25/" 25 "pikachu" c8Final
    (by decide) (by decide) (by decide) (by decide) (by decide) (by decide)
    (by decide) rfl (by decide) (by decide) (by decide)

/-! ## The applySeq calculus: closed form and replay -/

end PokePipeline
